import Mathlib

/-!
# Verification of the TTC bus-tracker route parser

Shallow embedding of `src/ttcBusTracker.py` (first file copy, lines 1-271).
The XML feed is modelled as a tree of elements; network fetch and the
temporary-file staging are identity plumbing around the parse, so the
embedded operations take the already-parsed root element as input.
Python exceptions are modelled with `Except PyError`; Python `float` values
carry no arithmetic in this program (they are parsed, stored, and never
compared or combined), so they are embedded as exact rationals produced by
a decimal parser.
-/

namespace TTC

/-- A parsed XML element: tag name, attribute list, text content, children.
Mirrors `xml.etree.ElementTree.Element`. -/
inductive Xml : Type where
  | elem (tag : String) (attrib : List (String × String)) (text : Option String)
      (children : List Xml) : Xml
deriving Repr

def Xml.tag : Xml → String
  | .elem t _ _ _ => t

def Xml.attrib : Xml → List (String × String)
  | .elem _ a _ _ => a

def Xml.textOf : Xml → Option String
  | .elem _ _ tx _ => tx

def Xml.children : Xml → List Xml
  | .elem _ _ _ cs => cs

/-- `element.get(name)`: attribute lookup returning `None` when absent. -/
def Xml.get (e : Xml) (name : String) : Option String :=
  (e.attrib.find? (fun p => p.1 == name)).map (fun p => p.2)

/-- `element.findall(name)`: the direct children whose tag is `name`,
in document order. -/
def Xml.findall (e : Xml) (name : String) : List Xml :=
  e.children.filter (fun c => c.tag == name)

/-- `element.find(name)`: first direct child whose tag is `name`, or `None`. -/
def Xml.find (e : Xml) (name : String) : Option Xml :=
  (e.findall name).head?

/-- The Python exceptions this program can raise, with their messages.
`noRouteError` embeds the module's `NoRouteError` class; every other
constructor is a built-in (generic) Python exception. -/
inductive PyError : Type where
  | indexError (msg : String)
  | typeError (msg : String)
  | valueError (msg : String)
  | nameError (v : String)
  | noRouteError (msg : String)
deriving Repr, DecidableEq

/-- Integer value of a digit list (most significant first); `none` if any
character is not a decimal digit. -/
def digitsToNat : List Char → Nat → Option Nat
  | [], acc => some acc
  | c :: cs, acc =>
      if c.isDigit then digitsToNat cs (acc * 10 + (c.toNat - 48)) else none

/-- The value of a Python `float` built from a decimal literal, kept as the
exact scaled decimal `mantissa / 10 ^ scale`. The program stores the parsed
`lat`/`lon` values and never compares or combines them, so this exact
embedding is observationally equivalent to binary floating point here. -/
structure PyFloat where
  mantissa : Int
  scale : Nat
deriving Repr, DecidableEq

/-- Embedding of Python `float(s)` on plain decimal literals
(`[+-]? digits [. digits]`, at least one digit): the exact decimal value. -/
def parseDecimal (s : String) : Option PyFloat :=
  let cs := s.data
  let signed : Int × List Char :=
    match cs with
    | '-' :: rest => (-1, rest)
    | '+' :: rest => (1, rest)
    | _ => (1, cs)
  let intPart := signed.2.takeWhile Char.isDigit
  let rest := signed.2.dropWhile Char.isDigit
  match rest with
  | [] =>
      if intPart.isEmpty then none
      else (digitsToNat intPart 0).map
        (fun n => { mantissa := signed.1 * (n : Int), scale := 0 })
  | '.' :: fracPart =>
      if intPart.isEmpty && fracPart.isEmpty then none
      else
        match digitsToNat intPart 0, digitsToNat fracPart 0 with
        | some n, some f =>
            some { mantissa := signed.1 * ((n * 10 ^ fracPart.length + f : Nat) : Int),
                   scale := fracPart.length }
        | _, _ => none
  | _ => none

/-- `float(x)` where `x` is the result of `element.get(...)`: `None` raises
`TypeError`, an unparseable string raises `ValueError`. -/
def pyFloat : Option String → Except PyError PyFloat
  | none => .error (.typeError "float() argument must be a string or a number, not NoneType")
  | some s =>
      match parseDecimal s with
      | some q => .ok q
      | none => .error (.valueError ("could not convert string to float: " ++ s))

/-- `BusStop` (module class). Field names follow the source: `_id` is the
TTC stop id, `intersection` the `title` attribute, `coordinates` the parsed
`(lat, lon)` pair, `_tag` the Nextbus correlation tag. -/
structure BusStop where
  route : String
  _id : Option String
  intersection : Option String
  coordinates : PyFloat × PyFloat
  _tag : Option String
deriving Repr, DecidableEq

/-- Construction of one `BusStop` from a `stop` element, as in the
`BusRoute.__init__` stop loop:
`BusStop(self.name, stop.get('stopId'), stop.get('title'),
(float(stop.get('lat')), float(stop.get('lon'))), stop.get('tag'))`. -/
def mkBusStop (routeName : String) (stop : Xml) : Except PyError BusStop :=
  match pyFloat (stop.get "lat") with
  | .error e => .error e
  | .ok la =>
      match pyFloat (stop.get "lon") with
      | .error e => .error e
      | .ok lo =>
          .ok { route := routeName
                _id := stop.get "stopId"
                intersection := stop.get "title"
                coordinates := (la, lo)
                _tag := stop.get "tag" }

/-- A compass heading, the value of the `_orientation` classification. -/
inductive Heading : Type where
  | north
  | south
  | east
  | west
deriving Repr, DecidableEq

/-- The `if/elif/elif/else` chain classifying `_orientation = title[0]`:
`"N"` is north, `"E"` east, `"S"` south, anything else west. -/
def orient (c : Char) : Heading :=
  if c = 'N' then .north
  else if c = 'E' then .east
  else if c = 'S' then .south
  else .west

/-- The mutable state of `BusRoute.__init__` during the `route` loop:
the growing `self.bus_stops`, the current binding of the loop variable
`stop` (which the direction loops read after the stop loop finished — it
is the most recently bound `stop` element, or unbound), and the four
directional attributes, `none` meaning the attribute was never assigned. -/
structure BuildState where
  bus_stops : List BusStop
  lastStop : Option Xml
  north : Option (List BusStop)
  south : Option (List BusStop)
  east : Option (List BusStop)
  west : Option (List BusStop)
deriving Repr

def BuildState.initial : BuildState :=
  { bus_stops := [], lastStop := none,
    north := none, south := none, east := none, west := none }

/-- Assignment to the directional attribute selected by the heading. -/
def BuildState.setHeading (st : BuildState) (h : Heading) (ms : List BusStop) :
    BuildState :=
  match h with
  | .north => { st with north := some ms }
  | .south => { st with south := some ms }
  | .east => { st with east := some ms }
  | .west => { st with west := some ms }

/-- Read of the directional attribute selected by the heading. -/
def BuildState.getHeading (st : BuildState) : Heading → Option (List BusStop)
  | .north => st.north
  | .south => st.south
  | .east => st.east
  | .west => st.west

/-- The inner matching loops of each direction branch:
`for tag in direction.findall("stop"): for bus_stop in self.bus_stops:
if stop.get('tag') == bus_stop._tag: <collection>.append(bus_stop)`.
Note the condition reads `stop` — the stale loop variable from the stop
loop — not the iteration variable `tag`; when `stop` was never bound and
the loop body runs, Python raises `NameError`. -/
def directionMatches (lastStop : Option Xml) (stops : List BusStop)
    (refs : List Xml) : Except PyError (List BusStop) :=
  match refs with
  | [] => .ok []
  | _ :: _ =>
      match lastStop with
      | none => .error (.nameError "stop")
      | some s =>
          .ok ((refs.map (fun _ =>
            stops.filter (fun b => s.get "tag" == b._tag))).flatten)

/-- One iteration of `for direction in route.findall("direction")`:
read `title`, take `title[0]` (a missing title makes the subscript raise
`TypeError`, an empty one `IndexError`), compute the matches, and assign
the directional collection selected by the first character. -/
def processDirection (st : BuildState) (d : Xml) : Except PyError BuildState :=
  match d.get "title" with
  | none => .error (.typeError "NoneType object is not subscriptable")
  | some t =>
      match t.data with
      | [] => .error (.indexError "string index out of range")
      | c :: _ =>
          match directionMatches st.lastStop st.bus_stops (d.findall "stop") with
          | .error e => .error e
          | .ok ms => .ok (st.setHeading (orient c) ms)

def processDirections : BuildState → List Xml → Except PyError BuildState
  | st, [] => .ok st
  | st, d :: ds =>
      match processDirection st d with
      | .error e => .error e
      | .ok st' => processDirections st' ds

/-- The stop loop of one `route` element: construct a `BusStop` from each
`stop` element in order, appending to the list. -/
def buildStops (routeName : String) : List Xml → Except PyError (List BusStop)
  | [] => .ok []
  | e :: es =>
      match mkBusStop routeName e with
      | .error err => .error err
      | .ok b =>
          match buildStops routeName es with
          | .error err => .error err
          | .ok bs => .ok (b :: bs)

/-- One iteration of `for route in _doc.findall('route')`: append the
route's stops to `self.bus_stops` (updating the `stop` loop variable to
the last stop element, if any), then process the route's `direction`
elements. -/
def processRoute (routeName : String) (st : BuildState) (route : Xml) :
    Except PyError BuildState :=
  match buildStops routeName (route.findall "stop") with
  | .error e => .error e
  | .ok newStops =>
      processDirections
        { st with
          bus_stops := st.bus_stops ++ newStops
          lastStop := match (route.findall "stop").getLast? with
            | some s => some s
            | none => st.lastStop }
        (route.findall "direction")

def processRoutes (routeName : String) :
    BuildState → List Xml → Except PyError BuildState
  | st, [] => .ok st
  | st, rt :: rts =>
      match processRoute routeName st rt with
      | .error e => .error e
      | .ok st' => processRoutes routeName st' rts

/-- `BusRoute` (module class), after construction. A directional field is
`none` exactly when the corresponding attribute was never created. -/
structure BusRoute where
  number : Int
  name : String
  bus_stops : List BusStop
  north_stops : Option (List BusStop)
  south_stops : Option (List BusStop)
  east_stops : Option (List BusStop)
  west_stops : Option (List BusStop)
deriving Repr, DecidableEq

def BusRoute.headingStops (r : BusRoute) : Heading → Option (List BusStop)
  | .north => r.north_stops
  | .south => r.south_stops
  | .east => r.east_stops
  | .west => r.west_stops

/-- The fixed Nextbus service path the route-config URL is built on. -/
def routeConfigBase : String :=
  "http://webservices.nextbus.com/service/publicXMLFeed"

/-- The URL built in `BusRoute.__init__`:
`"http://webservices.nextbus.com/service/" +
"publicXMLFeed?command=routeConfig&a=ttc&r=" + str(self.number)`. -/
def routeConfigUrl (number : Int) : String :=
  "http://webservices.nextbus.com/service/"
    ++ "publicXMLFeed?command=routeConfig&a=ttc&r="
    ++ toString number

/-- `BusRoute.__init__(route_no)` given the parsed feed's root element.
`self.name = _doc.getroot()[0].attrib['title']`: an empty root raises
`IndexError`; a missing `title` key raises `KeyError`, which the handler
catches — but the handler evaluates `str(route_name)`, an undefined name,
so what escapes is `NameError("route_name")`, and the
`raise NoRouteError(...)` line is never reached. -/
def BusRoute.make (route_no : Int) (doc : Xml) : Except PyError BusRoute :=
  match doc.children with
  | [] => .error (.indexError "list index out of range")
  | first :: _ =>
      match first.get "title" with
      | none => .error (.nameError "route_name")
      | some name =>
          match processRoutes name BuildState.initial (doc.findall "route") with
          | .error e => .error e
          | .ok st =>
              .ok { number := route_no, name := name, bus_stops := st.bus_stops,
                    north_stops := st.north, south_stops := st.south,
                    east_stops := st.east, west_stops := st.west }

/-- All `stop` elements nested under `route` elements, in feed order. -/
def allStopElems (doc : Xml) : List Xml :=
  ((doc.findall "route").map (fun rt => rt.findall "stop")).flatten

/-- All `direction` elements nested under `route` elements, in feed order. -/
def allDirectionElems (doc : Xml) : List Xml :=
  ((doc.findall "route").map (fun rt => rt.findall "direction")).flatten

/-- `GMapsRoute`'s point formatting: `str(p[0]) + ',' + str(p[1])`. -/
def formatPoint {α : Type} [ToString α] (p : α × α) : String :=
  toString p.1 ++ "," ++ toString p.2

/-- The URL built in `GMapsRoute`. -/
def gmapsUrl {α : Type} [ToString α] (point_A point_B : α × α)
    (key : String) : String :=
  "https://maps.googleapis.com/maps/api/distancematrix/xml?"
    ++ "origins=" ++ formatPoint point_A
    ++ "&destinations=" ++ formatPoint point_B
    ++ "&mode=transit"
    ++ "&key=" ++ key

/-- Python subscripting `e[i]` where `e` may be `None` (from a failed
`find`): `None` is not subscriptable (`TypeError`); an out-of-range child
index raises `IndexError`. -/
def pySubscript (e : Option Xml) (i : Nat) : Except PyError Xml :=
  match e with
  | none => .error (.typeError "NoneType object is not subscriptable")
  | some el =>
      match el.children.get? i with
      | some c => Except.ok c
      | none => .error (.indexError "list index out of range")

/-- The extraction step of `GMapsRoute` from the parsed response root:
`time = parse(file_name).find('row')[0][1][1].text`,
`distance = parse(file_name).find('row')[0][2][1].text`,
`return (distance, time)`. -/
def GMapsExtract (doc : Xml) :
    Except PyError (Option String × Option String) :=
  match pySubscript (doc.find "row") 0 with
  | .error e => .error e
  | .ok t0 =>
    match pySubscript (some t0) 1 with
    | .error e => .error e
    | .ok t1 =>
      match pySubscript (some t1) 1 with
      | .error e => .error e
      | .ok t2 =>
        match pySubscript (doc.find "row") 0 with
        | .error e => .error e
        | .ok d0 =>
          match pySubscript (some d0) 2 with
          | .error e => .error e
          | .ok d1 =>
            match pySubscript (some d1) 1 with
            | .error e => .error e
            | .ok d2 => .ok (d2.textOf, t2.textOf)

/-! ## Concrete feed documents used to evaluate the model -/

/-- A feed `stop` element with the five attributes the parser reads. -/
def stopElem (tg sid title la lo : String) : Xml :=
  .elem "stop"
    [("tag", tg), ("stopId", sid), ("title", title), ("lat", la), ("lon", lo)]
    none []

/-- A feed `direction` element with a title and nested `stop` references. -/
def dirElem (title : String) (refs : List String) : Xml :=
  .elem "direction" [("title", title)] none
    (refs.map (fun t => .elem "stop" [("tag", t)] none []))

/-- The round-trip scenario feed: route 23 named `23-Dawes`, two stops
tagged `1001` and `1002`, one north direction referencing tag `1001`. -/
def feed23 : Xml :=
  .elem "body" [] none
    [ .elem "route" [("title", "23-Dawes"), ("tag", "23")] none
        [ stopElem "1001" "10001" "A and B" "43.5" "-79.1"
        , stopElem "1002" "10002" "C and D" "43.6" "-79.2"
        , dirElem "North - 23 Dawes" ["1001"] ] ]

/-- The `BusStop` the parser builds from `feed23`'s first stop element. -/
def busStop1001 : BusStop :=
  { route := "23-Dawes", _id := some "10001", intersection := some "A and B",
    coordinates := (⟨435, 1⟩, ⟨-791, 1⟩), _tag := some "1001" }

/-- The `BusStop` the parser builds from `feed23`'s second stop element. -/
def busStop1002 : BusStop :=
  { route := "23-Dawes", _id := some "10002", intersection := some "C and D",
    coordinates := (⟨436, 1⟩, ⟨-792, 1⟩), _tag := some "1002" }

/-- The `BusRoute` that `BusRoute.make 23 feed23` produces. -/
def busRoute23 : BusRoute :=
  { number := 23, name := "23-Dawes",
    bus_stops := [busStop1001, busStop1002],
    north_stops := some [busStop1002],
    south_stops := none, east_stops := none, west_stops := none }

/-- A feed whose root's first top-level child has no `title` attribute. -/
def feedNoTitle : Xml :=
  .elem "body" [] none [ .elem "Error" [("shouldRetry", "false")] none [] ]

/-- A direction element with the unrecognized title `Unknown`. -/
def dirUnknown : Xml :=
  .elem "direction" [("title", "Unknown")] none []

/-- The state produced by processing `dirUnknown` from the initial state:
only the west collection is assigned (to the empty match list). -/
def stUnknown : BuildState :=
  { bus_stops := [], lastStop := none,
    north := none, south := none, east := none, west := some [] }

/-- A direction element with no `title` attribute at all. -/
def dirNoTitle : Xml := .elem "direction" [] none []

/-- A feed whose only direction element has no `title` attribute. -/
def feedBadDir : Xml :=
  .elem "body" [] none
    [ .elem "route" [("title", "5-Humber")] none [dirNoTitle] ]

/-- The `text` element holding the canned duration text. -/
def cannedDurText : Xml := .elem "text" [] (some "12 mins") []

/-- The `text` element holding the canned distance text. -/
def cannedDistText : Xml := .elem "text" [] (some "3.4 km") []

/-- The canned `duration` element: value child then text child. -/
def cannedDur : Xml :=
  .elem "duration" [] none [ .elem "value" [] (some "720") [], cannedDurText ]

/-- The canned `distance` element: value child then text child. -/
def cannedDist : Xml :=
  .elem "distance" [] none [ .elem "value" [] (some "3400") [], cannedDistText ]

/-- The first (and only) child of the canned result row. -/
def cannedEl : Xml :=
  .elem "element" [] none
    [ .elem "status" [] (some "OK") [], cannedDur, cannedDist ]

/-- The canned result row. -/
def cannedRow : Xml := .elem "row" [] none [cannedEl]

/-- A canned distance-matrix response with duration text `12 mins` at
`row[0][1][1]` and distance text `3.4 km` at `row[0][2][1]`. -/
def cannedGmaps : Xml :=
  .elem "DistanceMatrixResponse" [] none
    [ .elem "status" [] (some "OK") [], cannedRow ]

/-! ## Predicates used in the statements -/

/-- Every stop held in a directional collection of the state is also in
the state's full stop list. -/
def DirInv (st : BuildState) : Prop :=
  ∀ hd ls b, st.getHeading hd = some ls → b ∈ ls → b ∈ st.bus_stops

/-- The direction element `d` is classified to heading `hd`: its title's
first character orients to `hd`. -/
def dirHits (d : Xml) (hd : Heading) : Prop :=
  ∃ t c cs, d.get "title" = some t ∧ t.data = c :: cs ∧ orient c = hd

/-- The direction element has a present, non-empty `title` attribute, so
that `title[0]` succeeds. -/
def goodTitle (d : Xml) : Prop :=
  ∃ t, d.get "title" = some t ∧ t ≠ ""

/-! ## Helper lemmas -/

theorem ok_bind {α β : Type} (a : α) (f : α → Except PyError β) :
    (Except.ok a >>= f) = f a := rfl

theorem error_bind {α β : Type} (e : PyError) (f : α → Except PyError β) :
    ((Except.error e : Except PyError α) >>= f) = Except.error e := rfl

theorem exists_mem_append {α : Type} {xs ys : List α} {p : α → Prop} :
    (∃ x ∈ xs ++ ys, p x) ↔ (∃ x ∈ xs, p x) ∨ (∃ x ∈ ys, p x) := by
  constructor
  · rintro ⟨x, hx, hp⟩
    rcases List.mem_append.mp hx with h | h
    · exact Or.inl ⟨x, h, hp⟩
    · exact Or.inr ⟨x, h, hp⟩
  · rintro (⟨x, hx, hp⟩ | ⟨x, hx, hp⟩)
    · exact ⟨x, List.mem_append_left _ hx, hp⟩
    · exact ⟨x, List.mem_append_right _ hx, hp⟩

theorem setHeading_bus_stops (st : BuildState) (h : Heading) (ms : List BusStop) :
    (st.setHeading h ms).bus_stops = st.bus_stops := by
  cases h <;> rfl

theorem setHeading_lastStop (st : BuildState) (h : Heading) (ms : List BusStop) :
    (st.setHeading h ms).lastStop = st.lastStop := by
  cases h <;> rfl

theorem getHeading_setHeading (st : BuildState) (h h' : Heading)
    (ms : List BusStop) :
    (st.setHeading h ms).getHeading h' =
      if h' = h then some ms else st.getHeading h' := by
  cases h <;> cases h' <;>
    simp [BuildState.setHeading, BuildState.getHeading]

theorem getHeading_initial (hd : Heading) :
    BuildState.initial.getHeading hd = none := by
  cases hd <;> rfl

/-- The matches appended to a directional collection are all drawn from
the current full stop list. -/
theorem directionMatches_subset {ls : Option Xml} {stops : List BusStop}
    {refs : List Xml} {ms : List BusStop}
    (h : directionMatches ls stops refs = .ok ms) :
    ∀ b ∈ ms, b ∈ stops := by
  cases refs with
  | nil =>
    unfold directionMatches at h
    injection h with h'
    subst h'
    intro b hb
    simp at hb
  | cons r rs =>
    cases ls with
    | none => unfold directionMatches at h; cases h
    | some s =>
      unfold directionMatches at h
      injection h with h'
      subst h'
      intro b hb
      rw [List.mem_flatten] at hb
      obtain ⟨l, hl, hbl⟩ := hb
      rw [List.mem_map] at hl
      obtain ⟨x, _, rfl⟩ := hl
      exact List.mem_of_mem_filter hbl

theorem directionMatches_error {ls : Option Xml} {stops : List BusStop}
    {refs : List Xml} {e : PyError}
    (h : directionMatches ls stops refs = .error e) : e = .nameError "stop" := by
  cases refs with
  | nil => unfold directionMatches at h; cases h
  | cons r rs =>
    cases ls with
    | none =>
      unfold directionMatches at h
      injection h with h'
      exact h'.symm
    | some s => unfold directionMatches at h; cases h

/-- Successful processing of one direction element decomposes into: a
present title, a first character, a successful match computation, and the
assignment of the oriented collection. -/
theorem processDirection_ok {st : BuildState} {d : Xml} {st' : BuildState}
    (h : processDirection st d = .ok st') :
    ∃ t c cs ms, d.get "title" = some t ∧ t.data = c :: cs ∧
      directionMatches st.lastStop st.bus_stops (d.findall "stop") = .ok ms ∧
      st' = st.setHeading (orient c) ms := by
  unfold processDirection at h
  cases ht : d.get "title" with
  | none => simp only [ht] at h; cases h
  | some t =>
    simp only [ht] at h
    cases hd : t.data with
    | nil => simp only [hd] at h; cases h
    | cons c cs =>
      simp only [hd] at h
      cases hm : directionMatches st.lastStop st.bus_stops (d.findall "stop") with
      | error e => simp only [hm] at h; cases h
      | ok ms =>
        simp only [hm] at h
        injection h with h'
        exact ⟨t, c, cs, ms, rfl, hd, rfl, h'.symm⟩

/-- An error from processing one direction element is either one of the
two `title[0]` failures or the `NameError` for the unbound `stop`. -/
theorem processDirection_error {st : BuildState} {d : Xml} {e : PyError}
    (h : processDirection st d = .error e) :
    e = .typeError "NoneType object is not subscriptable" ∨
    e = .indexError "string index out of range" ∨
    e = .nameError "stop" := by
  unfold processDirection at h
  cases ht : d.get "title" with
  | none =>
    simp only [ht] at h
    injection h with h'
    exact Or.inl h'.symm
  | some t =>
    simp only [ht] at h
    cases hd : t.data with
    | nil =>
      simp only [hd] at h
      injection h with h'
      exact Or.inr (Or.inl h'.symm)
    | cons c cs =>
      simp only [hd] at h
      cases hm : directionMatches st.lastStop st.bus_stops (d.findall "stop") with
      | error e' =>
        simp only [hm] at h
        injection h with h'
        exact Or.inr (Or.inr (h' ▸ directionMatches_error hm))
      | ok ms => simp only [hm] at h; cases h

/-- A direction element that was processed successfully had a present,
non-empty title. -/
theorem processDirection_goodTitle {st : BuildState} {d : Xml}
    {st' : BuildState} (h : processDirection st d = .ok st') : goodTitle d := by
  obtain ⟨t, c, cs, ms, ht, hd, _, _⟩ := processDirection_ok h
  refine ⟨t, ht, ?_⟩
  intro he
  rw [he] at hd
  exact List.noConfusion hd

theorem pyFloat_error {o : Option String} {err : PyError}
    (h : pyFloat o = .error err) :
    err = .typeError "float() argument must be a string or a number, not NoneType" ∨
    ∃ m, err = .valueError m := by
  cases o with
  | none =>
    unfold pyFloat at h
    injection h with h'
    exact Or.inl h'.symm
  | some s =>
    unfold pyFloat at h
    cases hp : parseDecimal s with
    | none =>
      simp only [hp] at h
      injection h with h'
      exact Or.inr ⟨_, h'.symm⟩
    | some q => simp only [hp] at h; cases h

/-- The fields of a successfully constructed `BusStop` come from the stop
element's attributes, with `lat`/`lon` parsed as floating point. -/
theorem mkBusStop_ok {nm : String} {e : Xml} {b : BusStop}
    (h : mkBusStop nm e = .ok b) :
    b.route = nm ∧ b._id = e.get "stopId" ∧ b.intersection = e.get "title" ∧
    b._tag = e.get "tag" ∧
    ∃ la lo, pyFloat (e.get "lat") = .ok la ∧ pyFloat (e.get "lon") = .ok lo ∧
      b.coordinates = (la, lo) := by
  unfold mkBusStop at h
  cases hla : pyFloat (e.get "lat") with
  | error er => simp only [hla] at h; cases h
  | ok la =>
    simp only [hla] at h
    cases hlo : pyFloat (e.get "lon") with
    | error er => simp only [hlo] at h; cases h
    | ok lo =>
      simp only [hlo] at h
      injection h with h'
      subst h'
      exact ⟨rfl, rfl, rfl, rfl, la, lo, rfl, rfl, rfl⟩

theorem mkBusStop_error {nm : String} {e : Xml} {err : PyError}
    (h : mkBusStop nm e = .error err) :
    err = .typeError "float() argument must be a string or a number, not NoneType" ∨
    ∃ m, err = .valueError m := by
  unfold mkBusStop at h
  cases hla : pyFloat (e.get "lat") with
  | error er =>
    simp only [hla] at h
    injection h with h'
    exact h' ▸ pyFloat_error hla
  | ok la =>
    simp only [hla] at h
    cases hlo : pyFloat (e.get "lon") with
    | error er =>
      simp only [hlo] at h
      injection h with h'
      exact h' ▸ pyFloat_error hlo
    | ok lo => simp only [hlo] at h; cases h

theorem buildStops_cons_ok {nm : String} {x : Xml} {xs : List Xml}
    {bs : List BusStop} (h : buildStops nm (x :: xs) = .ok bs) :
    ∃ b tl, mkBusStop nm x = .ok b ∧ buildStops nm xs = .ok tl ∧
      bs = b :: tl := by
  unfold buildStops at h
  cases hb : mkBusStop nm x with
  | error e => simp only [hb] at h; cases h
  | ok b =>
    simp only [hb] at h
    cases ht : buildStops nm xs with
    | error e => simp only [ht] at h; cases h
    | ok tl =>
      simp only [ht] at h
      injection h with h'
      exact ⟨b, tl, rfl, rfl, h'.symm⟩

theorem buildStops_append {nm : String} {xs ys : List Xml}
    {as bs : List BusStop} (hx : buildStops nm xs = .ok as)
    (hy : buildStops nm ys = .ok bs) :
    buildStops nm (xs ++ ys) = .ok (as ++ bs) := by
  induction xs generalizing as with
  | nil =>
    unfold buildStops at hx
    injection hx with h'
    subst h'
    simpa using hy
  | cons x xs ih =>
    obtain ⟨b, tl, hb, htl, rfl⟩ := buildStops_cons_ok hx
    show buildStops nm (x :: (xs ++ ys)) = .ok ((b :: tl) ++ bs)
    unfold buildStops
    rw [hb, ih htl]
    rfl

theorem buildStops_length {nm : String} {xs : List Xml} {bs : List BusStop}
    (h : buildStops nm xs = .ok bs) : bs.length = xs.length := by
  induction xs generalizing bs with
  | nil =>
    unfold buildStops at h
    injection h with h'
    subst h'
    rfl
  | cons x xs ih =>
    obtain ⟨b, tl, hb, htl, rfl⟩ := buildStops_cons_ok h
    simp [ih htl]

/-- Element-wise: the i-th constructed stop comes from the i-th stop
element. -/
theorem buildStops_get {nm : String} {xs : List Xml} {bs : List BusStop}
    (h : buildStops nm xs = .ok bs) :
    ∀ i (h1 : i < xs.length) (h2 : i < bs.length),
      mkBusStop nm (xs.get ⟨i, h1⟩) = .ok (bs.get ⟨i, h2⟩) := by
  induction xs generalizing bs with
  | nil => intro i h1 h2; exact absurd h1 (by simp)
  | cons x xs ih =>
    obtain ⟨b, tl, hb, htl, rfl⟩ := buildStops_cons_ok h
    intro i h1 h2
    cases i with
    | zero => simpa using hb
    | succ j =>
      have hj1 : j < xs.length := by simpa using h1
      have hj2 : j < tl.length := by simpa using h2
      simpa using ih htl j hj1 hj2

theorem buildStops_error {nm : String} {xs : List Xml} {err : PyError}
    (h : buildStops nm xs = .error err) :
    err = .typeError "float() argument must be a string or a number, not NoneType" ∨
    ∃ m, err = .valueError m := by
  induction xs with
  | nil => unfold buildStops at h; cases h
  | cons x xs ih =>
    unfold buildStops at h
    cases hb : mkBusStop nm x with
    | error e =>
      simp only [hb] at h
      injection h with h'
      exact h' ▸ mkBusStop_error hb
    | ok b =>
      simp only [hb] at h
      cases ht : buildStops nm xs with
      | error e =>
        simp only [ht] at h
        injection h with h'
        exact ih (h' ▸ ht)
      | ok tl => simp only [ht] at h; cases h

/-- Direction processing never touches the full stop list. -/
theorem processDirections_bus_stops {ds : List Xml} :
    ∀ {st st' : BuildState}, processDirections st ds = .ok st' →
      st'.bus_stops = st.bus_stops := by
  induction ds with
  | nil =>
    intro st st' h
    unfold processDirections at h
    injection h with h'
    subst h'
    rfl
  | cons d ds ih =>
    intro st st' h
    unfold processDirections at h
    cases h1 : processDirection st d with
    | error e => simp only [h1] at h; cases h
    | ok st1 =>
      simp only [h1] at h
      obtain ⟨t, c, cs, ms, _, _, _, rfl⟩ := processDirection_ok h1
      rw [ih h, setHeading_bus_stops]

theorem processDirection_inv {st : BuildState} {d : Xml} {st' : BuildState}
    (hinv : DirInv st) (h : processDirection st d = .ok st') : DirInv st' := by
  obtain ⟨t, c, cs, ms, ht, hd, hm, rfl⟩ := processDirection_ok h
  intro hd' ls b hget hb
  rw [getHeading_setHeading] at hget
  rw [setHeading_bus_stops]
  by_cases hcase : hd' = orient c
  · rw [if_pos hcase] at hget
    injection hget with h'
    subst h'
    exact directionMatches_subset hm b hb
  · rw [if_neg hcase] at hget
    exact hinv hd' ls b hget hb

theorem processDirections_inv {ds : List Xml} :
    ∀ {st st' : BuildState}, DirInv st → processDirections st ds = .ok st' →
      DirInv st' := by
  induction ds with
  | nil =>
    intro st st' hinv h
    unfold processDirections at h
    injection h with h'
    subst h'
    exact hinv
  | cons d ds ih =>
    intro st st' hinv h
    unfold processDirections at h
    cases h1 : processDirection st d with
    | error e => simp only [h1] at h; cases h
    | ok st1 =>
      simp only [h1] at h
      exact ih (processDirection_inv hinv h1) h

theorem processDirections_goodTitle {ds : List Xml} :
    ∀ {st st' : BuildState}, processDirections st ds = .ok st' →
      ∀ d ∈ ds, goodTitle d := by
  induction ds with
  | nil => intro st st' _ d hd; simp at hd
  | cons d0 ds ih =>
    intro st st' h d hd
    unfold processDirections at h
    cases h1 : processDirection st d0 with
    | error e => simp only [h1] at h; cases h
    | ok st1 =>
      simp only [h1] at h
      rcases List.mem_cons.mp hd with rfl | hmem
      · exact processDirection_goodTitle h1
      · exact ih h d hmem

theorem processDirections_error {ds : List Xml} :
    ∀ {st : BuildState} {e : PyError}, processDirections st ds = .error e →
      e = .typeError "NoneType object is not subscriptable" ∨
      e = .indexError "string index out of range" ∨
      e = .nameError "stop" := by
  induction ds with
  | nil => intro st e h; unfold processDirections at h; cases h
  | cons d ds ih =>
    intro st e h
    unfold processDirections at h
    cases h1 : processDirection st d with
    | error e' =>
      simp only [h1] at h
      injection h with h'
      exact h' ▸ processDirection_error h1
    | ok st1 =>
      simp only [h1] at h
      exact ih h

/-- With a present, non-empty title, the only error a direction can raise
is the `NameError` for the unbound `stop` variable. -/
theorem processDirection_error_goodTitle {st : BuildState} {d : Xml}
    {e : PyError} (hg : goodTitle d) (h : processDirection st d = .error e) :
    e = .nameError "stop" := by
  obtain ⟨t, ht, hne⟩ := hg
  unfold processDirection at h
  simp only [ht] at h
  cases hd : t.data with
  | nil =>
    exact absurd (String.ext (by rw [hd])) hne
  | cons c cs =>
    simp only [hd] at h
    cases hm : directionMatches st.lastStop st.bus_stops (d.findall "stop") with
    | error e' =>
      simp only [hm] at h
      injection h with h'
      exact h' ▸ directionMatches_error hm
    | ok ms => simp only [hm] at h; cases h

theorem processDirections_error_goodTitle {ds : List Xml} :
    ∀ {st : BuildState} {e : PyError}, (∀ d ∈ ds, goodTitle d) →
      processDirections st ds = .error e → e = .nameError "stop" := by
  induction ds with
  | nil => intro st e _ h; unfold processDirections at h; cases h
  | cons d ds ih =>
    intro st e hg h
    unfold processDirections at h
    cases h1 : processDirection st d with
    | error e' =>
      simp only [h1] at h
      injection h with h'
      subst h'
      exact processDirection_error_goodTitle (hg d (List.mem_cons_self d ds)) h1
    | ok st1 =>
      simp only [h1] at h
      exact ih (fun d' hd' => hg d' (List.mem_cons_of_mem d hd')) h

/-- Successful processing of one route element decomposes into: the stop
construction, the state extension, and the direction processing. -/
theorem processRoute_ok {nm : String} {st : BuildState} {rt : Xml}
    {st' : BuildState} (h : processRoute nm st rt = .ok st') :
    ∃ newStops stMid,
      buildStops nm (rt.findall "stop") = .ok newStops ∧
      stMid.bus_stops = st.bus_stops ++ newStops ∧
      (∀ hd, stMid.getHeading hd = st.getHeading hd) ∧
      processDirections stMid (rt.findall "direction") = .ok st' := by
  unfold processRoute at h
  cases hb : buildStops nm (rt.findall "stop") with
  | error e => simp only [hb] at h; cases h
  | ok newStops =>
    simp only [hb] at h
    exact ⟨newStops, _, rfl, rfl, fun hd => by cases hd <;> rfl, h⟩

theorem processRoute_goodTitle {nm : String} {st : BuildState} {rt : Xml}
    {st' : BuildState} (h : processRoute nm st rt = .ok st') :
    ∀ d ∈ rt.findall "direction", goodTitle d := by
  obtain ⟨new, stMid, _, _, _, hdirs⟩ := processRoute_ok h
  exact processDirections_goodTitle hdirs

theorem processRoute_error_classify {nm : String} {st : BuildState} {rt : Xml}
    {e : PyError} (h : processRoute nm st rt = .error e) :
    e = .typeError "float() argument must be a string or a number, not NoneType" ∨
    (∃ m, e = .valueError m) ∨
    e = .typeError "NoneType object is not subscriptable" ∨
    e = .indexError "string index out of range" ∨
    e = .nameError "stop" := by
  unfold processRoute at h
  cases hb : buildStops nm (rt.findall "stop") with
  | error e' =>
    simp only [hb] at h
    injection h with h'
    subst h'
    rcases buildStops_error hb with h2 | h2
    · exact Or.inl h2
    · exact Or.inr (Or.inl h2)
  | ok new =>
    simp only [hb] at h
    rcases processDirections_error h with h2 | h2 | h2
    · exact Or.inr (Or.inr (Or.inl h2))
    · exact Or.inr (Or.inr (Or.inr (Or.inl h2)))
    · exact Or.inr (Or.inr (Or.inr (Or.inr h2)))

theorem processRoute_error_goodTitle {nm : String} {st : BuildState} {rt : Xml}
    {e : PyError} (hg : ∀ d ∈ rt.findall "direction", goodTitle d)
    (h : processRoute nm st rt = .error e) :
    e = .typeError "float() argument must be a string or a number, not NoneType" ∨
    (∃ m, e = .valueError m) ∨ e = .nameError "stop" := by
  unfold processRoute at h
  cases hb : buildStops nm (rt.findall "stop") with
  | error e' =>
    simp only [hb] at h
    injection h with h'
    subst h'
    rcases buildStops_error hb with h2 | h2
    · exact Or.inl h2
    · exact Or.inr (Or.inl h2)
  | ok new =>
    simp only [hb] at h
    exact Or.inr (Or.inr (processDirections_error_goodTitle hg h))

theorem processRoutes_inv {rts : List Xml} :
    ∀ {nm : String} {st st' : BuildState}, DirInv st →
      processRoutes nm st rts = .ok st' → DirInv st' := by
  induction rts with
  | nil =>
    intro nm st st' hinv h
    unfold processRoutes at h
    injection h with h'
    subst h'
    exact hinv
  | cons rt rts ih =>
    intro nm st st' hinv h
    unfold processRoutes at h
    cases h1 : processRoute nm st rt with
    | error e => simp only [h1] at h; cases h
    | ok st1 =>
      simp only [h1] at h
      refine ih ?_ h
      obtain ⟨new, stMid, _, hbs, hgh, hdirs⟩ := processRoute_ok h1
      refine processDirections_inv ?_ hdirs
      intro hd ls b hget hb
      rw [hgh hd] at hget
      rw [hbs]
      exact List.mem_append_left _ (hinv hd ls b hget hb)

/-- The full stop list built by the route loop is the stop construction
applied to all `stop` elements of all routes, in order. -/
theorem processRoutes_stops {rts : List Xml} :
    ∀ {nm : String} {st st' : BuildState}, processRoutes nm st rts = .ok st' →
      ∃ L, buildStops nm ((rts.map (fun rt => rt.findall "stop")).flatten) = .ok L ∧
        st'.bus_stops = st.bus_stops ++ L := by
  induction rts with
  | nil =>
    intro nm st st' h
    unfold processRoutes at h
    injection h with h'
    subst h'
    exact ⟨[], rfl, by simp⟩
  | cons rt rts ih =>
    intro nm st st' h
    unfold processRoutes at h
    cases h1 : processRoute nm st rt with
    | error e => simp only [h1] at h; cases h
    | ok st1 =>
      simp only [h1] at h
      obtain ⟨L2, hL2, hbs2⟩ := ih h
      obtain ⟨new, stMid, hb, hmid, _, hdirs⟩ := processRoute_ok h1
      have h1bs : st1.bus_stops = st.bus_stops ++ new :=
        (processDirections_bus_stops hdirs).trans hmid
      refine ⟨new ++ L2, ?_, ?_⟩
      · have hsh : ((rt :: rts).map (fun x => x.findall "stop")).flatten
            = rt.findall "stop" ++ (rts.map (fun x => x.findall "stop")).flatten := by
          simp
        rw [hsh]
        exact buildStops_append hb hL2
      · rw [hbs2, h1bs, List.append_assoc]

theorem processRoutes_goodTitle {rts : List Xml} :
    ∀ {nm : String} {st st' : BuildState}, processRoutes nm st rts = .ok st' →
      ∀ d ∈ ((rts.map (fun rt => rt.findall "direction")).flatten), goodTitle d := by
  induction rts with
  | nil => intro nm st st' _ d hd; simp at hd
  | cons rt rts ih =>
    intro nm st st' h d hd
    unfold processRoutes at h
    cases h1 : processRoute nm st rt with
    | error e => simp only [h1] at h; cases h
    | ok st1 =>
      simp only [h1] at h
      simp only [List.map_cons, List.flatten_cons, List.mem_append] at hd
      rcases hd with hd | hd
      · exact processRoute_goodTitle h1 d hd
      · exact ih h d hd

theorem processRoutes_error_classify {rts : List Xml} :
    ∀ {nm : String} {st : BuildState} {e : PyError},
      processRoutes nm st rts = .error e →
      e = .typeError "float() argument must be a string or a number, not NoneType" ∨
      (∃ m, e = .valueError m) ∨
      e = .typeError "NoneType object is not subscriptable" ∨
      e = .indexError "string index out of range" ∨
      e = .nameError "stop" := by
  induction rts with
  | nil => intro nm st e h; unfold processRoutes at h; cases h
  | cons rt rts ih =>
    intro nm st e h
    unfold processRoutes at h
    cases h1 : processRoute nm st rt with
    | error e' =>
      simp only [h1] at h
      injection h with h'
      subst h'
      exact processRoute_error_classify h1
    | ok st1 =>
      simp only [h1] at h
      exact ih h

theorem processRoutes_error_goodTitle {rts : List Xml} :
    ∀ {nm : String} {st : BuildState} {e : PyError},
      (∀ d ∈ ((rts.map (fun rt => rt.findall "direction")).flatten), goodTitle d) →
      processRoutes nm st rts = .error e →
      e = .typeError "float() argument must be a string or a number, not NoneType" ∨
      (∃ m, e = .valueError m) ∨ e = .nameError "stop" := by
  induction rts with
  | nil => intro nm st e _ h; unfold processRoutes at h; cases h
  | cons rt rts ih =>
    intro nm st e hg h
    unfold processRoutes at h
    have hg1 : ∀ d ∈ rt.findall "direction", goodTitle d := by
      intro d hd
      apply hg
      simp only [List.map_cons, List.flatten_cons]
      exact List.mem_append_left _ hd
    have hg2 : ∀ d ∈ ((rts.map (fun r => r.findall "direction")).flatten),
        goodTitle d := by
      intro d hd
      apply hg
      simp only [List.map_cons, List.flatten_cons]
      exact List.mem_append_right _ hd
    cases h1 : processRoute nm st rt with
    | error e' =>
      simp only [h1] at h
      injection h with h'
      subst h'
      exact processRoute_error_goodTitle hg1 h1
    | ok st1 =>
      simp only [h1] at h
      exact ih hg2 h

/-- Decomposition of a successful `BusRoute` construction. -/
theorem make_ok {n : Int} {doc : Xml} {r : BusRoute}
    (h : BusRoute.make n doc = .ok r) :
    ∃ first nm st, doc.children.head? = some first ∧
      first.get "title" = some nm ∧
      processRoutes nm BuildState.initial (doc.findall "route") = .ok st ∧
      r.number = n ∧ r.name = nm ∧ r.bus_stops = st.bus_stops ∧
      ∀ hd, r.headingStops hd = st.getHeading hd := by
  unfold BusRoute.make at h
  cases hc : doc.children with
  | nil => simp only [hc] at h; cases h
  | cons first rest =>
    simp only [hc] at h
    cases ht : first.get "title" with
    | none => simp only [ht] at h; cases h
    | some nm =>
      simp only [ht] at h
      cases hst : processRoutes nm BuildState.initial (doc.findall "route") with
      | error e => simp only [hst] at h; cases h
      | ok st =>
        simp only [hst] at h
        injection h with h'
        subst h'
        exact ⟨first, nm, st, rfl, ht, hst, rfl, rfl, rfl,
          fun hd => by cases hd <;> rfl⟩

/-- No execution path of the constructor raises `NoRouteError`: the
handler that would raise it dies on the undefined name `route_name`
first. -/
theorem make_error_nonRoute {n : Int} {doc : Xml} {e : PyError}
    (h : BusRoute.make n doc = .error e) : ∀ m, e ≠ .noRouteError m := by
  unfold BusRoute.make at h
  cases hc : doc.children with
  | nil =>
    simp only [hc] at h
    injection h with h'
    subst h'
    intro m hm
    cases hm
  | cons first rest =>
    simp only [hc] at h
    cases ht : first.get "title" with
    | none =>
      simp only [ht] at h
      injection h with h'
      subst h'
      intro m hm
      cases hm
    | some nm =>
      simp only [ht] at h
      cases hst : processRoutes nm BuildState.initial (doc.findall "route") with
      | error e' =>
        simp only [hst] at h
        injection h with h'
        subst h'
        intro m hm
        rcases processRoutes_error_classify hst with rfl | ⟨m2, rfl⟩ | rfl | rfl | rfl <;>
          cases hm
      | ok st => simp only [hst] at h; cases h

/-- When every direction element has a usable title, the two `title[0]`
errors cannot be the constructor's failure. -/
theorem make_error_nonTitle {n : Int} {doc : Xml} {e : PyError}
    (hg : ∀ d ∈ allDirectionElems doc, goodTitle d)
    (h : BusRoute.make n doc = .error e) :
    e ≠ .typeError "NoneType object is not subscriptable" ∧
    e ≠ .indexError "string index out of range" := by
  unfold BusRoute.make at h
  cases hc : doc.children with
  | nil =>
    simp only [hc] at h
    injection h with h'
    subst h'
    exact ⟨by simp, by simp⟩
  | cons first rest =>
    simp only [hc] at h
    cases ht : first.get "title" with
    | none =>
      simp only [ht] at h
      injection h with h'
      subst h'
      exact ⟨by simp, by simp⟩
    | some nm =>
      simp only [ht] at h
      cases hst : processRoutes nm BuildState.initial (doc.findall "route") with
      | error e' =>
        simp only [hst] at h
        injection h with h'
        subst h'
        rcases processRoutes_error_goodTitle (fun d hd => hg d hd) hst with
          rfl | ⟨m2, rfl⟩ | rfl <;> exact ⟨by simp, by simp⟩
      | ok st => simp only [hst] at h; cases h

/-- A feed that constructs successfully has a usable title on every
direction element. -/
theorem make_goodTitle {n : Int} {doc : Xml} {r : BusRoute}
    (h : BusRoute.make n doc = .ok r) :
    ∀ d ∈ allDirectionElems doc, goodTitle d := by
  obtain ⟨first, nm, st, _, _, hst, _⟩ := make_ok h
  exact fun d hd => processRoutes_goodTitle hst d hd

/-- Processing one direction element makes a heading's collection present
exactly when it was already present or the element classifies to it. -/
theorem processDirection_heading {st : BuildState} {d : Xml}
    {st' : BuildState} (h : processDirection st d = .ok st') (hd : Heading) :
    (st'.getHeading hd).isSome = true ↔
      (st.getHeading hd).isSome = true ∨ dirHits d hd := by
  obtain ⟨t, c, cs, ms, ht, htd, hm, rfl⟩ := processDirection_ok h
  rw [getHeading_setHeading]
  by_cases hc : hd = orient c
  · rw [if_pos hc]
    constructor
    · intro _
      exact Or.inr ⟨t, c, cs, ht, htd, hc.symm⟩
    · intro _
      rfl
  · rw [if_neg hc]
    constructor
    · exact Or.inl
    · intro hor
      rcases hor with hs | hhits
      · exact hs
      · obtain ⟨t', c', cs', ht', htd', hor'⟩ := hhits
        rw [ht] at ht'
        injection ht' with h1
        subst h1
        rw [htd] at htd'
        injection htd' with h2 _
        subst h2
        exact absurd hor'.symm hc

theorem processDirections_heading {ds : List Xml} :
    ∀ {st st' : BuildState}, processDirections st ds = .ok st' → ∀ hd,
      ((st'.getHeading hd).isSome = true ↔
        (st.getHeading hd).isSome = true ∨ ∃ d ∈ ds, dirHits d hd) := by
  induction ds with
  | nil =>
    intro st st' h hd
    unfold processDirections at h
    injection h with h'
    subst h'
    simp
  | cons d ds ih =>
    intro st st' h hd
    unfold processDirections at h
    cases h1 : processDirection st d with
    | error e => simp only [h1] at h; cases h
    | ok st1 =>
      simp only [h1] at h
      rw [ih h hd, processDirection_heading h1 hd]
      constructor
      · rintro ((hs | hdhit) | ⟨d', hd', hh⟩)
        · exact Or.inl hs
        · exact Or.inr ⟨d, List.mem_cons_self d ds, hdhit⟩
        · exact Or.inr ⟨d', List.mem_cons_of_mem d hd', hh⟩
      · rintro (hs | ⟨d', hd', hh⟩)
        · exact Or.inl (Or.inl hs)
        · rcases List.mem_cons.mp hd' with rfl | hmem
          · exact Or.inl (Or.inr hh)
          · exact Or.inr ⟨d', hmem, hh⟩

theorem processRoute_heading {nm : String} {st : BuildState} {rt : Xml}
    {st' : BuildState} (h : processRoute nm st rt = .ok st') (hd : Heading) :
    (st'.getHeading hd).isSome = true ↔
      (st.getHeading hd).isSome = true ∨
        ∃ d ∈ rt.findall "direction", dirHits d hd := by
  obtain ⟨new, stMid, _, _, hgh, hdirs⟩ := processRoute_ok h
  rw [processDirections_heading hdirs hd, hgh hd]

theorem processRoutes_heading {rts : List Xml} :
    ∀ {nm : String} {st st' : BuildState},
      processRoutes nm st rts = .ok st' → ∀ hd,
      ((st'.getHeading hd).isSome = true ↔
        (st.getHeading hd).isSome = true ∨
          ∃ d ∈ ((rts.map (fun rt => rt.findall "direction")).flatten),
            dirHits d hd) := by
  induction rts with
  | nil =>
    intro nm st st' h hd
    unfold processRoutes at h
    injection h with h'
    subst h'
    simp
  | cons rt rts ih =>
    intro nm st st' h hd
    unfold processRoutes at h
    cases h1 : processRoute nm st rt with
    | error e => simp only [h1] at h; cases h
    | ok st1 =>
      simp only [h1] at h
      rw [ih h hd, processRoute_heading h1 hd]
      rw [show ((rt :: rts).map (fun x => x.findall "direction")).flatten
          = rt.findall "direction"
            ++ (rts.map (fun x => x.findall "direction")).flatten from by simp]
      rw [exists_mem_append]
      exact or_assoc

/-! ## Claim theorems -/

/-- C1: evaluation of the constructor at the round-trip scenario feed
(route 23 `23-Dawes`, stops tagged `1001` and `1002`, one north direction
referencing tag `1001`). Number, name, stop count and the absent
south/east/west collections are as claimed; but the north collection
holds the stop tagged `1002`, not the referenced `1001`: the matching
condition reads the stale `stop` loop variable (the last stop element of
the stop loop) instead of the direction's nested reference `tag`, which
the code binds but never uses. -/
theorem c1_direction_matching_eval :
    BusRoute.make 23 feed23 = .ok busRoute23 ∧
    busRoute23.number = 23 ∧ busRoute23.name = "23-Dawes" ∧
    busRoute23.bus_stops.length = 2 ∧
    busRoute23.south_stops = none ∧ busRoute23.east_stops = none ∧
    busRoute23.west_stops = none ∧
    busStop1001._tag = some "1001" ∧ busStop1002._tag = some "1002" ∧
    busRoute23.north_stops = some [busStop1002] ∧
    busRoute23.north_stops ≠ some [busStop1001] :=
  ⟨rfl, rfl, rfl, rfl, rfl, rfl, rfl, rfl, rfl, rfl, by decide⟩

/-- C2: the directional collection a direction element populates is
selected by the first character of its `title`: `N` routes to north, `S`
to south, `E` to east, and every other first character — including `W`
and unrecognized letters such as the `U` of `"Unknown"` — to west. -/
theorem c2_orientation_routing :
    orient 'N' = Heading.north ∧ orient 'S' = Heading.south ∧
    orient 'E' = Heading.east ∧ orient 'W' = Heading.west ∧
    orient 'U' = Heading.west ∧
    (∀ c, c ≠ 'N' → c ≠ 'S' → c ≠ 'E' → orient c = Heading.west) ∧
    (∀ (st : BuildState) (d : Xml) (st' : BuildState) (t : String) (c : Char)
      (cs : List Char), processDirection st d = .ok st' →
      d.get "title" = some t → t.data = c :: cs →
      ∃ ms, directionMatches st.lastStop st.bus_stops (d.findall "stop") = .ok ms ∧
        st' = st.setHeading (orient c) ms) := by
  refine ⟨rfl, rfl, rfl, rfl, rfl, ?_, ?_⟩
  · intro c hN hS hE
    simp [orient, hN, hS, hE]
  · intro st d st' t c cs h ht hd
    obtain ⟨t', c', cs', ms, ht', hd', hm, hst⟩ := processDirection_ok h
    rw [ht] at ht'
    injection ht' with h1
    subst h1
    rw [hd] at hd'
    injection hd' with h2 h3
    subst h2
    exact ⟨ms, hm, hst⟩

/-- Witness for C2: the direction titled `Unknown` processed from the
initial state assigns the west collection. -/
theorem c2_orientation_routing_witness :
    ∃ ms, directionMatches BuildState.initial.lastStop
        BuildState.initial.bus_stops (dirUnknown.findall "stop") = .ok ms ∧
      stUnknown = BuildState.initial.setHeading (orient 'U') ms :=
  c2_orientation_routing.2.2.2.2.2.2 BuildState.initial dirUnknown stUnknown
    "Unknown" 'U' "nknown".data rfl rfl rfl

/-- C3: evaluation at a feed whose root's first child has no `title`
attribute. The claim says `NoRouteError` with the route number in the
message; the code's handler evaluates the undefined name `route_name`, so
what is actually raised is a `NameError`, and `NoRouteError` is never
raised on any path. -/
theorem c3_missing_title_eval :
    BusRoute.make 7 feedNoTitle = .error (.nameError "route_name") ∧
    (∀ m, BusRoute.make 7 feedNoTitle ≠ .error (.noRouteError m)) := by
  refine ⟨rfl, ?_⟩
  intro m h
  exact make_error_nonRoute h m rfl

/-- C4: the full stop collection of a constructed route is exactly the
stop construction applied to the `stop` elements nested under `route`
elements, in feed order: same length, and the i-th stop is built from the
i-th element, each from its `stopId`, `title`, parsed `lat`/`lon` and
`tag` attributes. -/
theorem c4_stop_collection (n : Int) (doc : Xml) (r : BusRoute)
    (h : BusRoute.make n doc = .ok r) :
    buildStops r.name (allStopElems doc) = .ok r.bus_stops ∧
    r.bus_stops.length = (allStopElems doc).length ∧
    (∀ i (h1 : i < (allStopElems doc).length) (h2 : i < r.bus_stops.length),
      mkBusStop r.name ((allStopElems doc).get ⟨i, h1⟩) =
        .ok (r.bus_stops.get ⟨i, h2⟩)) ∧
    (∀ (nm : String) (e : Xml) (b : BusStop), mkBusStop nm e = .ok b →
      b.route = nm ∧ b._id = e.get "stopId" ∧ b.intersection = e.get "title" ∧
      b._tag = e.get "tag" ∧
      ∃ la lo, pyFloat (e.get "lat") = .ok la ∧ pyFloat (e.get "lon") = .ok lo ∧
        b.coordinates = (la, lo)) := by
  obtain ⟨first, nm, st, hh, ht, hst, hnum, hname, hbs, hhd⟩ := make_ok h
  obtain ⟨L, hL, hsum⟩ := processRoutes_stops hst
  have hbs2 : st.bus_stops = L := by simpa using hsum
  have hmain : buildStops r.name (allStopElems doc) = .ok r.bus_stops := by
    rw [hname, hbs, hbs2]
    exact hL
  exact ⟨hmain, buildStops_length hmain, buildStops_get hmain,
    fun nm' e b hb => mkBusStop_ok hb⟩

/-- Witness for C4 at the round-trip feed. -/
theorem c4_stop_collection_witness :
    buildStops busRoute23.name (allStopElems feed23) = .ok busRoute23.bus_stops ∧
    busRoute23.bus_stops.length = (allStopElems feed23).length :=
  ⟨(c4_stop_collection 23 feed23 busRoute23 rfl).1,
   (c4_stop_collection 23 feed23 busRoute23 rfl).2.1⟩

/-- C5: every stop held in any directional collection of a constructed
route is also an element of the route's full stop collection. -/
theorem c5_directional_subset (n : Int) (doc : Xml) (r : BusRoute)
    (h : BusRoute.make n doc = .ok r) :
    ∀ hd ls b, r.headingStops hd = some ls → b ∈ ls → b ∈ r.bus_stops := by
  obtain ⟨first, nm, st, _, _, hst, _, _, hbs, hhd⟩ := make_ok h
  have hinv : DirInv st := by
    refine processRoutes_inv ?_ hst
    intro hd ls b hget _
    rw [getHeading_initial] at hget
    cases hget
  intro hd ls b hget hb
  rw [hbs]
  exact hinv hd ls b ((hhd hd).symm.trans hget) hb

/-- Witness for C5: the stop held in the north collection of the
round-trip route is in its full collection. -/
theorem c5_directional_subset_witness :
    busStop1002 ∈ busRoute23.bus_stops :=
  c5_directional_subset 23 feed23 busRoute23 rfl Heading.north [busStop1002]
    busStop1002 rfl (List.mem_cons_self _ _)

/-- C6: the distance extraction reads the duration text at position
`row[0][1][1]` and the distance text at `row[0][2][1]` of the response,
and returns the pair distance first, duration second. -/
theorem c6_gmaps_extraction (doc row el0 dur durText dist distText : Xml)
    (h1 : doc.find "row" = some row)
    (h2 : row.children.get? 0 = some el0)
    (h3 : el0.children.get? 1 = some dur)
    (h4 : dur.children.get? 1 = some durText)
    (h5 : el0.children.get? 2 = some dist)
    (h6 : dist.children.get? 1 = some distText) :
    GMapsExtract doc = .ok (distText.textOf, durText.textOf) := by
  unfold GMapsExtract pySubscript
  simp only [h1, h2, h3, h4, h5, h6]

/-- Witness for C6: on the canned response with duration text `12 mins`
and distance text `3.4 km`, the extraction returns
`("3.4 km", "12 mins")`. -/
theorem c6_gmaps_extraction_witness :
    GMapsExtract cannedGmaps = .ok (some "3.4 km", some "12 mins") :=
  c6_gmaps_extraction cannedGmaps cannedRow cannedEl cannedDur cannedDurText
    cannedDist cannedDistText rfl rfl rfl rfl rfl rfl

/-- C7: each point is formatted into the request URL as latitude, a
comma, then longitude; in particular `(43.6532, -79.3832)` — whose
components render as `43.6532` and `-79.3832` — formats to
`"43.6532,-79.3832"`. -/
theorem c7_point_formatting :
    (∀ (α : Type) [inst : ToString α] (pA pB : α × α) (key : String),
      gmapsUrl pA pB key =
        "https://maps.googleapis.com/maps/api/distancematrix/xml?" ++ "origins="
          ++ (toString pA.1 ++ "," ++ toString pA.2)
          ++ "&destinations=" ++ (toString pB.1 ++ "," ++ toString pB.2)
          ++ "&mode=transit" ++ "&key=" ++ key) ∧
    formatPoint (("43.6532" : String), ("-79.3832" : String)) =
      "43.6532,-79.3832" :=
  ⟨fun α _ pA pB key => rfl, rfl⟩

/-- C8: the route-config URL is the fixed feed base path with query
parameters `command=routeConfig`, `a=ttc` and `r=<decimal route
number>`. -/
theorem c8_route_config_url :
    (∀ n : Int, routeConfigUrl n =
      routeConfigBase ++ "?" ++ "command=routeConfig" ++ "&" ++ "a=ttc" ++ "&"
        ++ "r=" ++ toString n) ∧
    routeConfigUrl 23 =
      "http://webservices.nextbus.com/service/publicXMLFeed?command=routeConfig&a=ttc&r=23" :=
  ⟨fun n => rfl, rfl⟩

/-- C9: a directional collection of a constructed route is present (the
attribute was created) precisely when the feed contains a direction
element whose title's first character classifies to that heading; with no
such element the field stays absent. -/
theorem c9_directional_presence (n : Int) (doc : Xml) (r : BusRoute)
    (h : BusRoute.make n doc = .ok r) (hd : Heading) :
    (r.headingStops hd).isSome = true ↔
      ∃ d ∈ allDirectionElems doc, dirHits d hd := by
  obtain ⟨first, nm, st, _, _, hst, _, _, _, hhd⟩ := make_ok h
  have hall : allDirectionElems doc
      = ((doc.findall "route").map (fun rt => rt.findall "direction")).flatten := rfl
  rw [hall, hhd hd, processRoutes_heading hst hd, getHeading_initial]
  simp

/-- Witness for C9 at the round-trip feed, north heading. -/
theorem c9_directional_presence_witness :
    (busRoute23.headingStops Heading.north).isSome = true ↔
      ∃ d ∈ allDirectionElems feed23, dirHits d Heading.north :=
  c9_directional_presence 23 feed23 busRoute23 rfl Heading.north

/-- C10: route construction is partial in the direction titles. Every
successfully constructed route's feed has a present, non-empty title on
each direction element; a feed with an absent or empty direction title
never yields a route but fails with a generic (non-`NoRouteError`) error;
and when every direction title is present and non-empty, the two
`title[0]` failures (`TypeError` on `None`, `IndexError` on the empty
string) cannot occur. -/
theorem c10_direction_title_partiality :
    (∀ (n : Int) (doc : Xml) (r : BusRoute), BusRoute.make n doc = .ok r →
      ∀ d ∈ allDirectionElems doc, ∃ t, d.get "title" = some t ∧ t ≠ "") ∧
    (∀ (n : Int) (doc : Xml) (d : Xml), d ∈ allDirectionElems doc →
      (d.get "title" = none ∨ d.get "title" = some "") →
      ∃ e, BusRoute.make n doc = .error e ∧ ∀ m, e ≠ .noRouteError m) ∧
    (∀ (n : Int) (doc : Xml),
      (∀ d ∈ allDirectionElems doc, ∃ t, d.get "title" = some t ∧ t ≠ "") →
      BusRoute.make n doc ≠
          .error (.typeError "NoneType object is not subscriptable") ∧
      BusRoute.make n doc ≠
          .error (.indexError "string index out of range")) := by
  refine ⟨?_, ?_, ?_⟩
  · intro n doc r h d hd
    exact make_goodTitle h d hd
  · intro n doc d hd hbad
    cases hm : BusRoute.make n doc with
    | ok r =>
      obtain ⟨t, ht, hne⟩ := make_goodTitle hm d hd
      rcases hbad with hb | hb
      · rw [hb] at ht
        cases ht
      · rw [hb] at ht
        injection ht with h'
        exact absurd h'.symm hne
    | error e =>
      exact ⟨e, rfl, make_error_nonRoute hm⟩
  · intro n doc hg
    constructor
    · intro h
      exact (make_error_nonTitle hg h).1 rfl
    · intro h
      exact (make_error_nonTitle hg h).2 rfl

/-- Witness for C10: a feed whose only direction element lacks a title
fails with a generic error. -/
theorem c10_direction_title_partiality_witness :
    ∃ e, BusRoute.make 5 feedBadDir = .error e ∧
      ∀ m, e ≠ PyError.noRouteError m :=
  c10_direction_title_partiality.2.1 5 feedBadDir dirNoTitle
    (List.mem_cons_self _ _) (Or.inl rfl)

end TTC
